import Mathlib

/-!
Verification of `DiverseSelector/feature.py` (feature generation module).

The module is glue code around external cheminformatics toolkits (RDKit,
Mordred, PaDEL): it dispatches on string selectors, forwards parameters,
collects per-molecule outputs into tables, and raises descriptive errors on
unsupported selectors.  We embed the glue faithfully; the external toolkit
calls, whose code is not part of this repository, are modelled from the
specification as fields of a `ChemLib` record (an arbitrary instance of the
external libraries), so every theorem quantifies over the library where its
behaviour matters and assumes only the widths the specification documents.
-/

/-- Python exception values that `feature.py` can produce.  The payload is the
exception message. -/
inductive PyError where
  | valueError (msg : String)
  | attributeError (msg : String)
  | notImplementedError (msg : String)
  | typeError (msg : String)
  | deprecationWarning (msg : String)
  | runtimeError (msg : String)
  deriving DecidableEq

/-- An RDKit molecule, reduced to the two attributes `feature.py` reads from
it: the optional `_Name` property (`GetPropsAsDict().get("_Name")`) and the
canonical SMILES string that `Chem.MolToSmiles` returns for it.  All other
chemistry is consumed only by the opaque external toolkit functions. -/
structure RDKitMol where
  name : Option String
  smiles : String
  deriving DecidableEq

/-- Embedding of `Chem.MolToSmiles(mol)`: the canonical SMILES string of a molecule,
modelled as a stored attribute of the molecule value. -/
def MolToSmiles (mol : RDKitMol) : String := mol.smiles

/-- Python `str.upper()` on the ASCII selector strings the module compares. -/
def pyUpper (s : String) : String := ⟨s.data.map Char.toUpper⟩

/-- Python `str.lower()` on the ASCII selector strings the module compares. -/
def pyLower (s : String) : String := ⟨s.data.map Char.toLower⟩

/-- Python `str.startswith(pre)`. -/
def pyStartsWith (s pre : String) : Bool := pre.data.isPrefixOf s.data

/-- Descriptor values.  The claims never use numeric properties of the
computed values, only their arrangement, so an integer stands in for the
Python float. -/
abbrev Feature := Int

/-- An entry of RDKit `Descriptors.descList`: a descriptor function.  The
boolean argument models the `avg` keyword, which the code passes only to the
descriptor named `"Ipc"`; a plain call `function(mol)` is `f false mol`. -/
abbrev DescFunc := Bool → RDKitMol → Feature

/-- A `pandas.DataFrame`, reduced to what the claims mention: the row data,
the column labels and the row index.  An empty label list stands for the
pandas default (integer) labels. -/
structure DataFrame (α : Type) where
  data : List (List α)
  columns : List String
  index : List String
  deriving DecidableEq

/-- The set of files in the current working directory, for the temporary-file
side effect of the PaDEL path. -/
abbrev FS := List String

/-- Modelled from the spec: the external cheminformatics toolkits used by
`feature.py` (RDKit descriptor registry and fingerprint encoders, Mordred
calculator, PaDEL external tool).  Their code is not in this repository, so
they appear as an arbitrary record of functions; the spec treats them as
opaque black boxes that return one descriptor row per molecule and bit
vectors of documented widths. -/
structure ChemLib where
  /-- Field for `rdkit.Chem.Descriptors.descList`: named descriptor functions. -/
  descList : List (String × DescFunc)
  /-- Modelled from the spec: one row of `Calculator(descriptors, ignore_3D=False).pandas(mols)`
  for a single molecule; the Mordred calculator computes one row per input
  molecule, in order. -/
  mordredRow : RDKitMol → List Feature
  /-- Modelled from the spec: the descriptor row the PaDEL external tool
  computes for a single molecule of the temporary SDF file. -/
  padelRow : RDKitMol → List Feature
  /-- Modelled from the spec: whether the external `padelpy.from_sdf` call
  raises for the given batch of molecules (`none` = success). -/
  padelErr : List RDKitMol → Option PyError
  /-- Field for `rdMHFPFingerprint.MHFPEncoder(n_bits, random_seed).EncodeSECFPMol(mol,
  radius, rings, isomeric, kekulize, min_radius)`. -/
  mhfpEncodeSECFPMol : Nat → Nat → RDKitMol → Nat → Bool → Bool → Bool → Nat → List Bool
  /-- Field for `AllChem.GetMorganFingerprintAsBitVect(mol, radius, nBits, useChirality, useFeatures)`. -/
  getMorganFingerprintAsBitVect : RDKitMol → Nat → Nat → Bool → Bool → List Bool
  /-- Field for `Chem.rdmolops.RDKFingerprint(mol, minPath, maxPath, fpSize, nBitsPerHash,
  useHs, tgtDensity, minSize, branchedPaths, useBondOrder)`. -/
  rdkFingerprint : RDKitMol → Nat → Nat → Nat → Nat → Bool → Nat → Nat → Bool → Bool → List Bool
  /-- Field for `MACCSkeys.GenMACCSKeys(mol)`: the fixed-width substructure-key
  fingerprint (166 public keys per the spec). -/
  genMACCSKeys : RDKitMol → List Bool

/-- Modelled from the spec: `padelpy.from_sdf` reads back the molecules that
were just written to the temporary SDF file and computes one descriptor row
per molecule, in order, unless the external tool raises. -/
def from_sdf (lib : ChemLib) (mols : List RDKitMol) : Except PyError (List (List Feature)) :=
  match lib.padelErr mols with
  | some e => .error e
  | none => .ok (mols.map lib.padelRow)

/-- A Python list comprehension `[f(x) for x in l]` where each `f(x)` may
raise: elements are produced left to right and the first exception aborts the
whole comprehension. -/
def mapExcept {ε α β : Type} (f : α → Except ε β) : List α → Except ε (List β)
  | [] => .ok []
  | a :: l =>
    match f a with
    | .error e => .error e
    | .ok b =>
      match mapExcept f l with
      | .error e => .error e
      | .ok bs => .ok (b :: bs)

/-- Embedding of `DescriptorGenerator.__init__`: the constructor only stores its
arguments (defaults as in the source). -/
structure DescriptorGenerator where
  mols : List RDKitMol
  desc_type : String := "mordred"
  use_fragment : Bool := true
  ipc_avg : Bool := true

/-- Embedding of `DescriptorGenerator.mordred_descriptors` (staticmethod): wraps the
Mordred calculator output in a `DataFrame`, one row per molecule.  Column
labels of the external registry are not modelled. -/
def DescriptorGenerator.mordred_descriptors (lib : ChemLib) (mols : List RDKitMol) :
    DataFrame Feature :=
  { data := mols.map lib.mordredRow, columns := [], index := [] }

/-- Embedding of `DescriptorGenerator.padelpy_descriptors` (staticmethod): writes the
molecules to `padelpy_out_tmp.sdf` in the current working directory
(`Chem.SDWriter` creates the file), calls `padelpy.from_sdf` on it, and only
after a successful call executes `os.remove` on the temporary file.  There is
no try/finally: an exception from `from_sdf` propagates before the removal
runs. -/
def DescriptorGenerator.padelpy_descriptors (lib : ChemLib) (mols : List RDKitMol)
    (fs : FS) : Except PyError (DataFrame Feature) × FS :=
  let fs1 := fs.insert "padelpy_out_tmp.sdf"
  match from_sdf lib mols with
  | .error e => (.error e, fs1)
  | .ok desc => (.ok { data := desc, columns := [], index := [] },
                 fs1.erase "padelpy_out_tmp.sdf")

/-- Embedding of `_rdkit_descriptors_low`: computes the row of descriptor values for one
molecule.  If the legacy keyword `mol` appears among the extra keyword
arguments the code executes `raise DeprecationWarning(...)`, an exception (the
preceding reassignment of `mol` is dead).  Otherwise, each descriptor function
is applied to the molecule; the one named `"Ipc"` is called with `avg=True`
when `ipc_avg` is set. -/
def _rdkit_descriptors_low (mol : RDKitMol) (desc_list : List (String × DescFunc))
    (ipc_avg : Bool) (kwargs : List (String × RDKitMol)) : Except PyError (List Feature) :=
  if (kwargs.lookup "mol").isSome then
    .error (.deprecationWarning
      "Mol is being phased out as a parameter, please pass RDKit mol object instead.")
  else
    .ok (desc_list.map (fun p => if (p.1 == "Ipc") && ipc_avg then p.2 true mol else p.2 false mol))

/-- Embedding of `DescriptorGenerator.rdkit_descriptors` (staticmethod): filters the
registry (`continue` when `use_fragment is False` and the name starts with
`fr_`), then evaluates `_rdkit_descriptors_low` per molecule.  The source
forwards its `**kwargs` with `*kwargs`, i.e. it unpacks the KEYS of the dict
as extra positional arguments of `_rdkit_descriptors_low`; any extra
positional argument lands on the parameter `desc_list`, which is also passed
by keyword, so each such call raises `TypeError` (only when the comprehension
actually performs a call, i.e. per molecule).  `kwargs` is the list of keys
of the dict. -/
def DescriptorGenerator.rdkit_descriptors (lib : ChemLib) (mols : List RDKitMol)
    (use_fragment : Bool) (ipc_avg : Bool) (kwargs : List String) :
    Except PyError (DataFrame Feature) :=
  let desc_list := lib.descList.filter (fun p => !(use_fragment == false && pyStartsWith p.1 "fr_"))
  let descriptor_types := desc_list.map Prod.fst
  match mapExcept (fun mol =>
      if kwargs.isEmpty then _rdkit_descriptors_low mol desc_list ipc_avg []
      else .error (.typeError
        "_rdkit_descriptors_low() got multiple values for argument desc_list")) mols with
  | .error e => .error e
  | .ok arr_features =>
      .ok { data := arr_features, columns := descriptor_types, index := [] }

/-- Python `dict` update: a repeated key keeps its first-insertion position
but takes the latest value. -/
def dictInsert (d : List (String × DescFunc)) (k : String) (v : DescFunc) :
    List (String × DescFunc) :=
  if (d.lookup k).isSome then d.map (fun p => if p.1 = k then (k, v) else p)
  else d ++ [(k, v)]

/-- Python dict comprehension over an association list. -/
def dictOfList (l : List (String × DescFunc)) : List (String × DescFunc) :=
  l.foldl (fun d p => dictInsert d p.1 p.2) []

/-- Embedding of `DescriptorGenerator.rdkit_fragment_descriptors` (staticmethod): builds
the dict `{d[0]: d[1] for d in Descriptors.descList[115:]}`, fills one row per
molecule by iterating the dict, and labels the columns with the raw (not
deduplicated) slice of names; `pandas` raises when the two widths disagree. -/
def DescriptorGenerator.rdkit_fragment_descriptors (lib : ChemLib) (mols : List RDKitMol) :
    Except PyError (DataFrame Feature) :=
  let fragments := dictOfList (lib.descList.drop 115)
  let feature_names := (lib.descList.drop 115).map Prod.fst
  if feature_names.length ≠ fragments.length then
    .error (.valueError "Shape of passed values does not match columns")
  else
    .ok { data := mols.map (fun mol => fragments.map (fun p => p.2 false mol)),
          columns := feature_names, index := [] }

/-- Embedding of `DescriptorGenerator.compute_descriptor`: dispatch on
`self.desc_type.lower()`.  In the `rdkit` branch the source calls
`self.rdkit_descriptors(self.mols, use_fragment=..., ipc_avg=..., *kwargs)`:
`*kwargs` unpacks the keys of the `**kwargs` dict as extra positional
arguments, the first of which lands on the parameter `use_fragment`, which is
also passed by keyword — so with any extra keyword argument the call raises
`TypeError` before `rdkit_descriptors` runs.  With no extra keyword
arguments the inner dict is empty.  `kwargs` is the list of keys of the
caller's keyword arguments; the file-system state is threaded for the PaDEL
branch. -/
def DescriptorGenerator.compute_descriptor (lib : ChemLib) (self : DescriptorGenerator)
    (kwargs : List String) (fs : FS) : Except PyError (DataFrame Feature) × FS :=
  if pyLower self.desc_type = "mordred" then
    (.ok (DescriptorGenerator.mordred_descriptors lib self.mols), fs)
  else if pyLower self.desc_type = "padel" then
    DescriptorGenerator.padelpy_descriptors lib self.mols fs
  else if pyLower self.desc_type = "rdkit" then
    if kwargs.isEmpty then
      (DescriptorGenerator.rdkit_descriptors lib self.mols self.use_fragment self.ipc_avg [], fs)
    else
      (.error (.typeError "rdkit_descriptors() got multiple values for argument use_fragment"), fs)
  else if pyLower self.desc_type = "rdkit_frag" then
    (DescriptorGenerator.rdkit_fragment_descriptors lib self.mols, fs)
  else
    (.error (.valueError ("Unknown descriptor type " ++ self.desc_type ++ ".")), fs)

/-- Embedding of `FingerprintGenerator.__init__`: stored parameters, with the source's
defaults. -/
structure FingerprintGenerator where
  mols : List RDKitMol
  fp_type : String := "SECFP"
  n_bits : Nat := 2048
  radius : Nat := 3
  min_radius : Nat := 1
  random_seed : Nat := 12345
  rings : Bool := true
  isomeric : Bool := true
  kekulize : Bool := false

/-- The `mol_names` list computed in `FingerprintGenerator.__init__`:
`Chem.MolToSmiles(mol)` when `GetPropsAsDict().get("_Name")` is `None`, else
`GetProp("_Name")`. -/
def FingerprintGenerator.mol_names (mols : List RDKitMol) : List String :=
  mols.map (fun mol =>
    match mol.name with
    | none => MolToSmiles mol
    | some n => n)

/-- Embedding of `FingerprintGenerator.rdkit_fingerprint_low` (staticmethod): exact-match
dispatch on `fp_type` to the external encoders; the fallback raises
`NotImplementedError("{} not implemented yet.".format(fp_type))`. -/
def FingerprintGenerator.rdkit_fingerprint_low (lib : ChemLib) (mol : RDKitMol)
    (fp_type : String) (n_bits radius min_radius random_seed : Nat)
    (rings isomeric kekulize : Bool) : Except PyError (List Bool) :=
  if fp_type = "SECFP" then
    .ok (lib.mhfpEncodeSECFPMol n_bits random_seed mol radius rings isomeric kekulize min_radius)
  else if fp_type = "ECFP" then
    .ok (lib.getMorganFingerprintAsBitVect mol radius n_bits isomeric false)
  else if fp_type = "Morgan" then
    .ok (lib.getMorganFingerprintAsBitVect mol radius n_bits isomeric true)
  else if fp_type = "RDKFingerprint" then
    .ok (lib.rdkFingerprint mol 1 10 n_bits 2 true 0 128 true true)
  else if fp_type = "MaCCSKeys" then
    .ok (lib.genMACCSKeys mol)
  else
    .error (.notImplementedError (fp_type ++ " not implemented yet."))

/-- Embedding of `FingerprintGenerator.compute_fingerprint`: case-insensitive top-level
selector check, per-molecule low-level computation, and the resulting table
indexed by `self.mol_names`.  In the `else` branch the source executes
`raise ValueError(f"{self.desc_type} is not an supported fingerprint type.")`;
`FingerprintGenerator` never sets an attribute `desc_type`, so evaluating the
f-string raises `AttributeError` before the `ValueError` is constructed. -/
def FingerprintGenerator.compute_fingerprint (lib : ChemLib)
    (self : FingerprintGenerator) : Except PyError (DataFrame Bool) :=
  if pyUpper self.fp_type ∈ ["SECFP", "ECFP", "MORGAN", "RDKFINGERPRINT", "MACCSKEYS"] then
    match mapExcept (fun mol =>
        FingerprintGenerator.rdkit_fingerprint_low lib mol self.fp_type self.n_bits
          self.radius self.min_radius self.random_seed self.rings self.isomeric
          self.kekulize) self.mols with
    | .error e => .error e
    | .ok fps =>
        .ok { data := fps, columns := [],
              index := FingerprintGenerator.mol_names self.mols }
  else
    .error (.attributeError "FingerprintGenerator object has no attribute desc_type")

/-- Modelled from the spec: a concrete instance of the external toolkits,
used to evaluate the embedding on concrete inputs.  The encoders realize
exactly the widths the spec documents (`n_bits` for SECFP/ECFP/Morgan and
the path fingerprint, a fixed 166 bits for the MACCS keys); the descriptor
registry holds a plain descriptor, the averaged-capable `Ipc` descriptor and
one fragment-count descriptor. -/
def specLib : ChemLib :=
  { descList := [("MolWt", fun _ _ => 1),
                 ("Ipc", fun avg _ => if avg then 2 else 3),
                 ("fr_Al_COO", fun _ _ => 0)],
    mordredRow := fun _ => [0],
    padelRow := fun _ => [0],
    padelErr := fun _ => none,
    mhfpEncodeSECFPMol := fun n _ _ _ _ _ _ _ => List.replicate n false,
    getMorganFingerprintAsBitVect := fun _ _ n _ _ => List.replicate n false,
    rdkFingerprint := fun _ _ _ n _ _ _ _ _ _ => List.replicate n false,
    genMACCSKeys := fun _ => List.replicate 166 false }

/-- A molecule with no explicit `_Name` property. -/
def mol0 : RDKitMol := { name := none, smiles := "C" }

/-- A molecule with an explicit `_Name` property. -/
def molNamed : RDKitMol := { name := some "ethane", smiles := "CC" }

theorem mapExcept_ok {ε α β : Type} (f : α → Except ε β) (g : α → β)
    (hf : ∀ a, f a = .ok (g a)) : ∀ l : List α, mapExcept f l = .ok (l.map g) := by
  intro l
  induction l with
  | nil => rfl
  | cons a l ih => simp [mapExcept, hf a, ih]

theorem mapExcept_forall2 {ε α β : Type} (f : α → Except ε β) :
    ∀ (l : List α) (out : List β), mapExcept f l = .ok out →
      List.Forall₂ (fun a b => f a = .ok b) l out := by
  intro l
  induction l with
  | nil =>
    intro out h
    simp [mapExcept] at h
    simp [← h]
  | cons a l ih =>
    intro out h
    simp only [mapExcept] at h
    cases hfa : f a with
    | error e => rw [hfa] at h; cases h
    | ok b =>
      rw [hfa] at h
      cases hrec : mapExcept f l with
      | error e => rw [hrec] at h; cases h
      | ok bs =>
        rw [hrec] at h
        cases h
        exact List.Forall₂.cons hfa (ih bs hrec)

theorem forall2_map_map {α β γ : Type} (R : β → γ → Prop) (f : α → β) (g : α → γ) :
    ∀ l : List α, (∀ a ∈ l, R (f a) (g a)) → List.Forall₂ R (l.map f) (l.map g) := by
  intro l
  induction l with
  | nil => intro _; simp
  | cons a l ih =>
    intro h
    simp only [List.map_cons]
    exact List.Forall₂.cons (h a (by simp)) (ih (fun x hx => h x (by simp [hx])))

/-- Shape of any successful `compute_fingerprint` result: the top-level check
passed, each data row is a successful low-level fingerprint of the
corresponding molecule, and the index is `mol_names`. -/
theorem compute_fingerprint_ok_shape (lib : ChemLib) (gen : FingerprintGenerator)
    (df : DataFrame Bool)
    (hok : FingerprintGenerator.compute_fingerprint lib gen = .ok df) :
    pyUpper gen.fp_type ∈ ["SECFP", "ECFP", "MORGAN", "RDKFINGERPRINT", "MACCSKEYS"] ∧
    df.index = FingerprintGenerator.mol_names gen.mols ∧
    List.Forall₂ (fun mol row =>
      FingerprintGenerator.rdkit_fingerprint_low lib mol gen.fp_type gen.n_bits
        gen.radius gen.min_radius gen.random_seed gen.rings gen.isomeric
        gen.kekulize = .ok row) gen.mols df.data := by
  unfold FingerprintGenerator.compute_fingerprint at hok
  split at hok
  · rename_i hmem
    split at hok
    · cases hok
    · rename_i fps hfps
      cases hok
      exact ⟨hmem, rfl, mapExcept_forall2 _ _ _ hfps⟩
  · cases hok

/-- C1: the spec claims an unsupported fingerprint-family selector raises a
descriptive value error.  The raise statement in the source is indeed
`raise ValueError(f"{self.desc_type} is not an supported fingerprint type.")`,
but `FingerprintGenerator` never sets an attribute `desc_type`, so evaluating
the f-string raises `AttributeError` first and no `ValueError` is ever
constructed: the code contradicts the intent visible in its own raise
statement.  Evaluated here at the failing input `fp_type = "UnknownFP"`. -/
theorem C1_unknown_fp_type_attribute_error :
    FingerprintGenerator.compute_fingerprint specLib
      { mols := [mol0], fp_type := "UnknownFP" } =
    .error (.attributeError "FingerprintGenerator object has no attribute desc_type") := rfl

/-- C7: an unknown descriptor-family selector (lowercased form not among
mordred, padel, rdkit, rdkit_frag) makes `compute_descriptor` raise a
`ValueError` whose message names the offending selector, leaving the file
system untouched and producing no table. -/
theorem C7_unknown_desc_type_value_error (lib : ChemLib) (gen : DescriptorGenerator)
    (kwargs : List String) (fs : FS)
    (h : pyLower gen.desc_type ∉ ["mordred", "padel", "rdkit", "rdkit_frag"]) :
    DescriptorGenerator.compute_descriptor lib gen kwargs fs =
      (.error (.valueError ("Unknown descriptor type " ++ gen.desc_type ++ ".")), fs) := by
  simp only [List.mem_cons, List.not_mem_nil, or_false, not_or] at h
  obtain ⟨h1, h2, h3, h4⟩ := h
  unfold DescriptorGenerator.compute_descriptor
  rw [if_neg h1, if_neg h2, if_neg h3, if_neg h4]

/-- A generator with an unsupported descriptor selector, for the C7 witness. -/
def genFoo : DescriptorGenerator := { mols := [mol0], desc_type := "foo" }

/-- C7 witness: evaluating the theorem at `desc_type = "foo"`. -/
theorem C7_witness :
    DescriptorGenerator.compute_descriptor specLib genFoo [] [] =
      (.error (.valueError ("Unknown descriptor type " ++ genFoo.desc_type ++ ".")), []) :=
  C7_unknown_desc_type_value_error specLib genFoo [] [] (by decide)

/-- C8: when the extra keyword arguments of `_rdkit_descriptors_low` contain
the legacy key `mol`, the function raises the deprecation warning as an
exception (aborting the computation, returning no feature row) instead of
emitting a warning. -/
theorem C8_legacy_mol_kwarg_raises (mol : RDKitMol)
    (desc_list : List (String × DescFunc)) (ipc_avg : Bool)
    (kwargs : List (String × RDKitMol))
    (h : (kwargs.lookup "mol").isSome = true) :
    _rdkit_descriptors_low mol desc_list ipc_avg kwargs =
      .error (.deprecationWarning
        "Mol is being phased out as a parameter, please pass RDKit mol object instead.") := by
  unfold _rdkit_descriptors_low
  rw [if_pos h]

/-- C8 witness: evaluating the theorem with `kwargs = {mol: mol0}`. -/
theorem C8_witness :
    _rdkit_descriptors_low mol0 [] true [("mol", mol0)] =
      .error (.deprecationWarning
        "Mol is being phased out as a parameter, please pass RDKit mol object instead.") :=
  C8_legacy_mol_kwarg_raises mol0 [] true [("mol", mol0)] rfl

/-- C10: `compute_descriptor` with the `rdkit` selector and at least one extra
keyword argument raises `TypeError`: the call site unpacks the kwargs dict
with `*kwargs`, so its keys become extra positional arguments and collide
with the keyword argument `use_fragment`; no descriptors are computed. -/
theorem C10_rdkit_extra_kwargs_type_error (lib : ChemLib) (gen : DescriptorGenerator)
    (kwargs : List String) (fs : FS)
    (hk : kwargs ≠ []) (hd : pyLower gen.desc_type = "rdkit") :
    DescriptorGenerator.compute_descriptor lib gen kwargs fs =
      (.error (.typeError "rdkit_descriptors() got multiple values for argument use_fragment"),
       fs) := by
  have hke : kwargs.isEmpty = false := by simpa using hk
  unfold DescriptorGenerator.compute_descriptor
  rw [hd]
  rw [if_neg (by decide), if_neg (by decide), if_pos rfl, hke]
  rw [if_neg (by simp)]

/-- A generator with the rdkit selector, for the C10 witness. -/
def genRdkit : DescriptorGenerator := { mols := [mol0], desc_type := "rdkit" }

/-- C10 witness: evaluating the theorem with one extra keyword argument. -/
theorem C10_witness :
    DescriptorGenerator.compute_descriptor specLib genRdkit ["extra"] [] =
      (.error (.typeError "rdkit_descriptors() got multiple values for argument use_fragment"),
       []) :=
  C10_rdkit_extra_kwargs_type_error specLib genRdkit ["extra"] [] (by simp) rfl

/-- A generator whose selector passes the case-insensitive top-level check but
is not a canonical spelling, with an empty molecule list. -/
def genMorganEmpty : FingerprintGenerator := { mols := [], fp_type := "morgan" }

/-- C9 counterexample: with `fp_type = "morgan"` (uppercased form is in the
supported set, spelling is not canonical) and an EMPTY molecule list,
`compute_fingerprint` performs no low-level call at all and returns an empty
table instead of raising the claimed not-implemented error — so generation
can succeed for a non-canonical spelling. -/
theorem C9_counterexample :
    pyUpper "morgan" ∈ ["SECFP", "ECFP", "MORGAN", "RDKFINGERPRINT", "MACCSKEYS"] ∧
    "morgan" ∉ ["SECFP", "ECFP", "Morgan", "RDKFingerprint", "MaCCSKeys"] ∧
    FingerprintGenerator.compute_fingerprint specLib genMorganEmpty =
      .ok { data := [], columns := [], index := [] } :=
  ⟨by decide, by decide, rfl⟩

/-- C9 (amended): for every generator with AT LEAST ONE molecule whose
`fp_type` uppercases into the supported set but is not one of the five exact
canonical spellings, `compute_fingerprint` passes the top-level check and the
low-level dispatch raises `NotImplementedError` naming the requested type, so
no fingerprint table is produced. -/
theorem C9_amended_noncanonical_not_implemented (lib : ChemLib)
    (gen : FingerprintGenerator) (hne : gen.mols ≠ [])
    (hup : pyUpper gen.fp_type ∈ ["SECFP", "ECFP", "MORGAN", "RDKFINGERPRINT", "MACCSKEYS"])
    (hnc : gen.fp_type ∉ ["SECFP", "ECFP", "Morgan", "RDKFingerprint", "MaCCSKeys"]) :
    FingerprintGenerator.compute_fingerprint lib gen =
      .error (.notImplementedError (gen.fp_type ++ " not implemented yet.")) := by
  simp only [List.mem_cons, List.not_mem_nil, or_false, not_or] at hnc
  obtain ⟨n1, n2, n3, n4, n5⟩ := hnc
  have hlow : ∀ mol, FingerprintGenerator.rdkit_fingerprint_low lib mol gen.fp_type
      gen.n_bits gen.radius gen.min_radius gen.random_seed gen.rings gen.isomeric
      gen.kekulize = .error (.notImplementedError (gen.fp_type ++ " not implemented yet.")) := by
    intro mol
    unfold FingerprintGenerator.rdkit_fingerprint_low
    rw [if_neg n1, if_neg n2, if_neg n3, if_neg n4, if_neg n5]
  obtain ⟨m, rest, hm⟩ : ∃ m rest, gen.mols = m :: rest := by
    cases hm : gen.mols with
    | nil => exact absurd hm hne
    | cons m rest => exact ⟨m, rest, rfl⟩
  unfold FingerprintGenerator.compute_fingerprint
  rw [if_pos hup, hm]
  simp only [mapExcept, hlow m]

/-- A generator with the non-canonical spelling and one molecule, for the C9
witness. -/
def genMorganOne : FingerprintGenerator := { mols := [mol0], fp_type := "morgan" }

/-- C9 witness: evaluating the amended theorem at `fp_type = "morgan"` with
one molecule. -/
theorem C9_witness :
    FingerprintGenerator.compute_fingerprint specLib genMorganOne =
      .error (.notImplementedError (genMorganOne.fp_type ++ " not implemented yet.")) :=
  C9_amended_noncanonical_not_implemented specLib genMorganOne (by simp [genMorganOne])
    (by decide) (by decide)

/-- C6: whenever `compute_fingerprint` returns a table, its row index lists,
per molecule and in order, the explicit `_Name` property when it is set and
the canonical SMILES string otherwise. -/
theorem C6_index_is_name_or_smiles (lib : ChemLib) (gen : FingerprintGenerator)
    (df : DataFrame Bool)
    (hok : FingerprintGenerator.compute_fingerprint lib gen = .ok df) :
    df.index = gen.mols.map (fun mol => mol.name.getD (MolToSmiles mol)) := by
  rw [(compute_fingerprint_ok_shape lib gen df hok).2.1]
  unfold FingerprintGenerator.mol_names
  congr 1
  funext mol
  cases mol.name <;> rfl

/-- A generator holding one explicitly named and one unnamed molecule, for
the C6 witness. -/
def genNames : FingerprintGenerator := { mols := [molNamed, mol0], fp_type := "SECFP", n_bits := 4 }

/-- The table `compute_fingerprint` produces for `genNames` under `specLib`. -/
def dfNames : DataFrame Bool :=
  { data := [List.replicate 4 false, List.replicate 4 false], columns := [],
    index := ["ethane", "C"] }

/-- C6 witness: evaluating the theorem on a named and an unnamed molecule. -/
theorem C6_witness :
    dfNames.index = [molNamed, mol0].map (fun mol => mol.name.getD (MolToSmiles mol)) :=
  C6_index_is_name_or_smiles specLib genNames dfNames rfl

/-- A library instance whose external PaDEL call raises, for the C3
counterexample. -/
def failLib : ChemLib := { specLib with padelErr := fun _ => some (.runtimeError "padel failed") }

/-- C3 counterexample: when the external `from_sdf` call raises, the
exception propagates before `os.remove` runs and the temporary file
`padelpy_out_tmp.sdf` is left behind in the working directory — refuting the
claim that the file is deleted when the external tool call fails. -/
theorem C3_counterexample :
    DescriptorGenerator.padelpy_descriptors failLib [mol0] [] =
      (.error (.runtimeError "padel failed"), ["padelpy_out_tmp.sdf"]) := rfl

/-- C3 (amended): starting from a working directory without the temporary
file, `padelpy_descriptors` deletes `padelpy_out_tmp.sdf` before returning
when the external tool call succeeds, but leaves it behind when the call
raises. -/
theorem C3_amended_tmp_file (lib : ChemLib) (mols : List RDKitMol) (fs : FS)
    (hfs : "padelpy_out_tmp.sdf" ∉ fs) :
    (∀ df fs2, DescriptorGenerator.padelpy_descriptors lib mols fs = (.ok df, fs2) →
      "padelpy_out_tmp.sdf" ∉ fs2) ∧
    (∀ e fs2, DescriptorGenerator.padelpy_descriptors lib mols fs = (.error e, fs2) →
      "padelpy_out_tmp.sdf" ∈ fs2) := by
  simp only [DescriptorGenerator.padelpy_descriptors]
  rw [List.insert_of_not_mem hfs]
  cases h : from_sdf lib mols with
  | error e =>
    constructor
    · intro df fs2 heq
      simp at heq
    · intro e2 fs2 heq
      simp only [Prod.mk.injEq] at heq
      rw [← heq.2]
      exact List.mem_cons_self _ _
  | ok desc =>
    constructor
    · intro df fs2 heq
      simp only [Prod.mk.injEq] at heq
      rw [← heq.2, List.erase_cons_head]
      exact hfs
    · intro e2 fs2 heq
      simp at heq

/-- C3 witness: on a successful call with an initially clean directory, the
temporary file is not in the final file-system state. -/
theorem C3_witness :
    "padelpy_out_tmp.sdf" ∉ (DescriptorGenerator.padelpy_descriptors specLib [mol0] []).2 :=
  (C3_amended_tmp_file specLib [mol0] [] (by simp)).1
    { data := [[0]], columns := [], index := [] } [] rfl

theorem low_eval_secfp (lib : ChemLib) (mol : RDKitMol)
    (n r mr s : Nat) (ri iso k : Bool) :
    FingerprintGenerator.rdkit_fingerprint_low lib mol "SECFP" n r mr s ri iso k =
      .ok (lib.mhfpEncodeSECFPMol n s mol r ri iso k mr) := rfl

theorem low_eval_ecfp (lib : ChemLib) (mol : RDKitMol)
    (n r mr s : Nat) (ri iso k : Bool) :
    FingerprintGenerator.rdkit_fingerprint_low lib mol "ECFP" n r mr s ri iso k =
      .ok (lib.getMorganFingerprintAsBitVect mol r n iso false) := rfl

theorem low_eval_morgan (lib : ChemLib) (mol : RDKitMol)
    (n r mr s : Nat) (ri iso k : Bool) :
    FingerprintGenerator.rdkit_fingerprint_low lib mol "Morgan" n r mr s ri iso k =
      .ok (lib.getMorganFingerprintAsBitVect mol r n iso true) := rfl

theorem low_eval_rdkf (lib : ChemLib) (mol : RDKitMol)
    (n r mr s : Nat) (ri iso k : Bool) :
    FingerprintGenerator.rdkit_fingerprint_low lib mol "RDKFingerprint" n r mr s ri iso k =
      .ok (lib.rdkFingerprint mol 1 10 n 2 true 0 128 true true) := rfl

theorem low_eval_maccs (lib : ChemLib) (mol : RDKitMol)
    (n r mr s : Nat) (ri iso k : Bool) :
    FingerprintGenerator.rdkit_fingerprint_low lib mol "MaCCSKeys" n r mr s ri iso k =
      .ok (lib.genMACCSKeys mol) := rfl

theorem forall2_map_length {α : Type} (w : Nat) (R : α → List Bool → Prop)
    (hw : ∀ a b, R a b → b.length = w) :
    ∀ (l : List α) (out : List (List Bool)), List.Forall₂ R l out →
      out.map List.length = List.replicate l.length w := by
  intro l out h
  induction h with
  | nil => rfl
  | cons hab _ ih =>
    simp only [List.map_cons, List.length_cons, List.replicate_succ, ih]
    rw [hw _ _ hab]

/-- A MaCCSKeys generator with the default `n_bits = 2048`, for the C2
counterexample. -/
def genMaccs : FingerprintGenerator := { mols := [mol0], fp_type := "MaCCSKeys" }

/-- C2 counterexample: for the supported type `MaCCSKeys` with the default
`n_bits = 2048`, the single produced fingerprint has the fixed 166 columns,
not `n_bits` columns. -/
theorem C2_counterexample :
    genMaccs.n_bits = 2048 ∧
    (FingerprintGenerator.compute_fingerprint specLib genMaccs).map
      (fun df => df.data.map List.length) = .ok [166] ∧
    (166 : Nat) ≠ 2048 :=
  ⟨rfl, rfl, by decide⟩

/-- C2 (amended): for every library realizing the documented encoder widths
and every generator whose `fp_type` is one of the five canonical spellings,
if `compute_fingerprint` returns a table then it holds one fingerprint row
per molecule and every row has exactly `n_bits` columns for SECFP, ECFP,
Morgan and RDKFingerprint, and the fixed 166 columns for MaCCSKeys. -/
theorem C2_amended_fingerprint_width (lib : ChemLib)
    (hS : ∀ n s m r ri iso k mr, (lib.mhfpEncodeSECFPMol n s m r ri iso k mr).length = n)
    (hM : ∀ m r n c f, (lib.getMorganFingerprintAsBitVect m r n c f).length = n)
    (hR : ∀ m a b n c d e f g j, (lib.rdkFingerprint m a b n c d e f g j).length = n)
    (hK : ∀ m, (lib.genMACCSKeys m).length = 166)
    (gen : FingerprintGenerator)
    (hfp : gen.fp_type ∈ ["SECFP", "ECFP", "Morgan", "RDKFingerprint", "MaCCSKeys"])
    (df : DataFrame Bool)
    (hok : FingerprintGenerator.compute_fingerprint lib gen = .ok df) :
    df.data.map List.length =
      List.replicate gen.mols.length
        (if gen.fp_type = "MaCCSKeys" then 166 else gen.n_bits) := by
  have hshape := (compute_fingerprint_ok_shape lib gen df hok).2.2
  simp only [List.mem_cons, List.not_mem_nil, or_false] at hfp
  rcases hfp with h | h | h | h | h <;> rw [h] at hshape ⊢
  · rw [if_neg (by decide)]
    refine forall2_map_length gen.n_bits _ ?_ _ _ hshape
    intro mol row hrow
    rw [low_eval_secfp] at hrow
    cases hrow
    exact hS _ _ _ _ _ _ _ _
  · rw [if_neg (by decide)]
    refine forall2_map_length gen.n_bits _ ?_ _ _ hshape
    intro mol row hrow
    rw [low_eval_ecfp] at hrow
    cases hrow
    exact hM _ _ _ _ _
  · rw [if_neg (by decide)]
    refine forall2_map_length gen.n_bits _ ?_ _ _ hshape
    intro mol row hrow
    rw [low_eval_morgan] at hrow
    cases hrow
    exact hM _ _ _ _ _
  · rw [if_neg (by decide)]
    refine forall2_map_length gen.n_bits _ ?_ _ _ hshape
    intro mol row hrow
    rw [low_eval_rdkf] at hrow
    cases hrow
    exact hR _ _ _ _ _ _ _ _ _ _
  · rw [if_pos rfl]
    refine forall2_map_length 166 _ ?_ _ _ hshape
    intro mol row hrow
    rw [low_eval_maccs] at hrow
    cases hrow
    exact hK _

/-- An ECFP generator with `n_bits = 8`, for the C2 witness. -/
def genEcfp8 : FingerprintGenerator := { mols := [mol0], fp_type := "ECFP", n_bits := 8 }

/-- The table `compute_fingerprint` produces for `genEcfp8` under `specLib`. -/
def dfEcfp8 : DataFrame Bool :=
  { data := [List.replicate 8 false], columns := [], index := ["C"] }

/-- C2 witness: evaluating the amended theorem at an ECFP generator with
`n_bits = 8` and one molecule. -/
theorem C2_witness : dfEcfp8.data.map List.length = List.replicate 1 8 := by
  have h := C2_amended_fingerprint_width specLib
    (by intro n s m r ri iso k mr; exact List.length_replicate n false)
    (by intro m r n c f; exact List.length_replicate n false)
    (by intro m a b n c d e f g j; exact List.length_replicate n false)
    (by intro m; exact List.length_replicate 166 false)
    genEcfp8 (by decide) dfEcfp8 rfl
  rw [h]
  rfl

/-- The descriptor row that `compute_descriptor` computes for one molecule,
by selector: the Mordred row, the PaDEL row, the (filtered) RDKit registry
row, or the fragment-dict row. -/
def DescriptorGenerator.descRow (lib : ChemLib) (self : DescriptorGenerator)
    (mol : RDKitMol) : List Feature :=
  if pyLower self.desc_type = "mordred" then lib.mordredRow mol
  else if pyLower self.desc_type = "padel" then lib.padelRow mol
  else if pyLower self.desc_type = "rdkit" then
    (lib.descList.filter (fun p => !(self.use_fragment == false && pyStartsWith p.1 "fr_"))).map
      (fun p => if (p.1 == "Ipc") && self.ipc_avg then p.2 true mol else p.2 false mol)
  else if pyLower self.desc_type = "rdkit_frag" then
    (dictOfList (lib.descList.drop 115)).map (fun p => p.2 false mol)
  else []

/-- C5: for every supported descriptor selector, a successful
`compute_descriptor` call (with no extra keyword arguments) returns a table
whose data is exactly the per-molecule descriptor row mapped over the input
molecules — one row per molecule, in input order. -/
theorem C5_one_row_per_molecule (lib : ChemLib) (gen : DescriptorGenerator)
    (fs : FS) (df : DataFrame Feature) (fs2 : FS)
    (hsup : pyLower gen.desc_type ∈ ["mordred", "padel", "rdkit", "rdkit_frag"])
    (hok : DescriptorGenerator.compute_descriptor lib gen [] fs = (.ok df, fs2)) :
    df.data = gen.mols.map (DescriptorGenerator.descRow lib gen) := by
  simp only [List.mem_cons, List.not_mem_nil, or_false] at hsup
  rcases hsup with h | h | h | h
  · unfold DescriptorGenerator.compute_descriptor at hok
    rw [h, if_pos rfl] at hok
    simp only [Prod.mk.injEq, Except.ok.injEq] at hok
    obtain ⟨hdf, -⟩ := hok
    rw [← hdf]
    have hrow : DescriptorGenerator.descRow lib gen = lib.mordredRow := by
      funext mol
      unfold DescriptorGenerator.descRow
      rw [h, if_pos rfl]
    rw [hrow]
    rfl
  · unfold DescriptorGenerator.compute_descriptor at hok
    rw [h, if_neg (by decide), if_pos rfl] at hok
    simp only [DescriptorGenerator.padelpy_descriptors, from_sdf] at hok
    cases hpe : lib.padelErr gen.mols with
    | some e =>
      rw [hpe] at hok
      simp at hok
    | none =>
      rw [hpe] at hok
      simp only [Prod.mk.injEq, Except.ok.injEq] at hok
      obtain ⟨hdf, -⟩ := hok
      rw [← hdf]
      have hrow : DescriptorGenerator.descRow lib gen = lib.padelRow := by
        funext mol
        unfold DescriptorGenerator.descRow
        rw [h, if_neg (by decide), if_pos rfl]
      rw [hrow]
  · unfold DescriptorGenerator.compute_descriptor at hok
    rw [h, if_neg (by decide), if_neg (by decide), if_pos rfl,
        if_pos (show ([] : List String).isEmpty = true from rfl)] at hok
    simp only [DescriptorGenerator.rdkit_descriptors] at hok
    have hme := mapExcept_ok
      (fun mol => if ([] : List String).isEmpty then
          _rdkit_descriptors_low mol
            (lib.descList.filter
              (fun p => !(gen.use_fragment == false && pyStartsWith p.1 "fr_")))
            gen.ipc_avg []
        else .error (.typeError
          "_rdkit_descriptors_low() got multiple values for argument desc_list"))
      (fun mol =>
        (lib.descList.filter
          (fun p => !(gen.use_fragment == false && pyStartsWith p.1 "fr_"))).map
          (fun p => if (p.1 == "Ipc") && gen.ipc_avg then p.2 true mol else p.2 false mol))
      (by intro a; rfl) gen.mols
    rw [hme] at hok
    simp only [Prod.mk.injEq, Except.ok.injEq] at hok
    obtain ⟨hdf, -⟩ := hok
    rw [← hdf]
    have hrow : DescriptorGenerator.descRow lib gen = (fun mol =>
        (lib.descList.filter
          (fun p => !(gen.use_fragment == false && pyStartsWith p.1 "fr_"))).map
          (fun p => if (p.1 == "Ipc") && gen.ipc_avg then p.2 true mol
                    else p.2 false mol)) := by
      funext mol
      unfold DescriptorGenerator.descRow
      rw [h, if_neg (by decide), if_neg (by decide), if_pos rfl]
    rw [hrow]
  · unfold DescriptorGenerator.compute_descriptor at hok
    rw [h, if_neg (by decide), if_neg (by decide), if_neg (by decide), if_pos rfl] at hok
    simp only [DescriptorGenerator.rdkit_fragment_descriptors] at hok
    split at hok
    · simp at hok
    · simp only [Prod.mk.injEq, Except.ok.injEq] at hok
      obtain ⟨hdf, -⟩ := hok
      rw [← hdf]
      have hrow : DescriptorGenerator.descRow lib gen = (fun mol =>
          (dictOfList (lib.descList.drop 115)).map (fun p => p.2 false mol)) := by
        funext mol
        unfold DescriptorGenerator.descRow
        rw [h, if_neg (by decide), if_neg (by decide), if_neg (by decide), if_pos rfl]
      rw [hrow]

/-- A generator with the default mordred selector and two molecules, for the
C5 witness. -/
def genMord : DescriptorGenerator := { mols := [molNamed, mol0] }

/-- The table `compute_descriptor` produces for `genMord` under `specLib`. -/
def dfMord : DataFrame Feature := { data := [[0], [0]], columns := [], index := [] }

/-- C5 witness: evaluating the theorem on the mordred path with two
molecules. -/
theorem C5_witness :
    dfMord.data = [molNamed, mol0].map (DescriptorGenerator.descRow specLib genMord) :=
  C5_one_row_per_molecule specLib genMord [] dfMord [] (by decide) rfl

/-- Shape of a successful `rdkit_descriptors` call with no extra keyword
arguments: columns are the names of the filtered registry, data is one
evaluated registry row per molecule. -/
theorem rdkit_descriptors_ok_shape (lib : ChemLib) (mols : List RDKitMol)
    (uf ipc : Bool) (df : DataFrame Feature)
    (h : DescriptorGenerator.rdkit_descriptors lib mols uf ipc [] = .ok df) :
    df.columns = (lib.descList.filter
        (fun p => !(uf == false && pyStartsWith p.1 "fr_"))).map Prod.fst ∧
    df.data = mols.map (fun mol =>
      (lib.descList.filter (fun p => !(uf == false && pyStartsWith p.1 "fr_"))).map
        (fun p => if (p.1 == "Ipc") && ipc then p.2 true mol else p.2 false mol)) := by
  simp only [DescriptorGenerator.rdkit_descriptors] at h
  have hme := mapExcept_ok
    (fun mol => if ([] : List String).isEmpty then
        _rdkit_descriptors_low mol
          (lib.descList.filter (fun p => !(uf == false && pyStartsWith p.1 "fr_"))) ipc []
      else .error (.typeError
        "_rdkit_descriptors_low() got multiple values for argument desc_list"))
    (fun mol =>
      (lib.descList.filter (fun p => !(uf == false && pyStartsWith p.1 "fr_"))).map
        (fun p => if (p.1 == "Ipc") && ipc then p.2 true mol else p.2 false mol))
    (by intro a; rfl) mols
  rw [hme] at h
  simp only [Except.ok.injEq] at h
  rw [← h]
  exact ⟨rfl, rfl⟩

/-- C4: with at least one fragment-named entry in the registry (as in RDKit),
the `use_fragment=False` table of `rdkit_descriptors` keeps exactly the
columns of the `use_fragment=True` table whose names do not start with `fr_`
(a strict subset), and row by row the remaining (name, value) pairs are
unchanged. -/
theorem C4_use_fragment_strict_subset (lib : ChemLib) (mols : List RDKitMol)
    (ipc : Bool)
    (hfr : lib.descList.any (fun p => pyStartsWith p.1 "fr_") = true)
    (dfT dfF : DataFrame Feature)
    (hT : DescriptorGenerator.rdkit_descriptors lib mols true ipc [] = .ok dfT)
    (hF : DescriptorGenerator.rdkit_descriptors lib mols false ipc [] = .ok dfF) :
    dfF.columns = dfT.columns.filter (fun n => !(pyStartsWith n "fr_")) ∧
    dfF.columns.length < dfT.columns.length ∧
    List.Forall₂ (fun rowT rowF =>
      dfF.columns.zip rowF =
        (dfT.columns.zip rowT).filter (fun pr => !(pyStartsWith pr.1 "fr_")))
      dfT.data dfF.data := by
  obtain ⟨hTc, hTd⟩ := rdkit_descriptors_ok_shape lib mols true ipc dfT hT
  obtain ⟨hFc, hFd⟩ := rdkit_descriptors_ok_shape lib mols false ipc dfF hF
  have hpT : (fun p : String × DescFunc => !(true == false && pyStartsWith p.1 "fr_")) =
      (fun _ => true) := by funext p; rfl
  have hpF : (fun p : String × DescFunc => !(false == false && pyStartsWith p.1 "fr_")) =
      (fun p => !(pyStartsWith p.1 "fr_")) := by funext p; rfl
  rw [hpT, List.filter_true] at hTc hTd
  rw [hpF] at hFc hFd
  refine ⟨?_, ?_, ?_⟩
  · rw [hFc, hTc,
      show (fun p : String × DescFunc => !(pyStartsWith p.1 "fr_")) =
        ((fun n => !(pyStartsWith n "fr_")) ∘ Prod.fst) from rfl,
      List.filter_map]
  · rw [hFc, hTc, List.length_map, List.length_map]
    rw [List.any_eq_true] at hfr
    obtain ⟨x, hx, hpx⟩ := hfr
    exact List.length_filter_lt_length_iff_exists.mpr ⟨x, hx, by simp [hpx]⟩
  · rw [hTd, hFd]
    refine forall2_map_map _ _ _ mols (fun mol _ => ?_)
    rw [hFc, hTc, List.zip_map', List.zip_map', List.filter_map]
    rfl

/-- The `use_fragment=True` table of `rdkit_descriptors` for one molecule
under `specLib`, for the C4 witness. -/
def dfFragT : DataFrame Feature :=
  { data := [[1, 2, 0]], columns := ["MolWt", "Ipc", "fr_Al_COO"], index := [] }

/-- The `use_fragment=False` table of `rdkit_descriptors` for one molecule
under `specLib`, for the C4 witness. -/
def dfFragF : DataFrame Feature :=
  { data := [[1, 2]], columns := ["MolWt", "Ipc"], index := [] }

/-- C4 witness: evaluating the theorem on `specLib`, whose registry holds a
fragment descriptor, with one molecule. -/
theorem C4_witness : dfFragF.columns.length < dfFragT.columns.length :=
  (C4_use_fragment_strict_subset specLib [mol0] true rfl dfFragT dfFragF rfl rfl).2.1
